import Mathlib

/-!
Shallow embedding of `src/dataprep/eda/eda_frame.py` (class `EDAFrame` and its
helper functions), together with theorems settling the frozen claims about it.

Modelling conventions:
* A table cell is `Option Val`; `none` is the missing-value marker (None/NaN/NaT).
* A dask DataFrame is a list of partitions, each partition a list of rows.
* A dask Array is its flat cell matrix plus per-partition row-chunk metadata,
  where an unknown (nan) chunk length is `Option.none`.
* After `compute("nulls")` the source stores a materialized numpy array in
  `self._nulls`; this is the `Nulls.mat` constructor (no chunk metadata).
* Python dict mutation of the string-coercion cache is modelled with an explicit
  store of caches addressed by id: the class-level dict (shared by every
  instance built from raw data, since `__init__` never rebinds
  `self._str_col_cache`) is id 0; `__getitem__` allocates a fresh cache.
* The dtype classifier `detect_dtype` is an external black box; constructors are
  parameterized by the mapping (column name to semantic dtype) it produces.
* The row index, warning suppression and the textual rendering details of
  Python's `str` on containers are abstracted; no claim depends on them.
-/

namespace DataPrep

/-- A scalar inside a container-valued cell. -/
inductive SVal where
  | sstr (s : String)
  | sint (n : Int)
deriving DecidableEq

/-- Python `str` on a container element. -/
def svalStr : SVal → String
  | .sstr s => s
  | .sint n => toString n

/-- A Python value stored in a table cell (string, integer, or a container,
  which pandas treats as a single object-dtype scalar; container nesting depth
  is abstracted to one level, which no claim distinguishes). -/
inductive Val where
  | vstr (s : String)
  | vint (n : Int)
  | vlist (l : List SVal)
deriving DecidableEq

/-- A cell: `none` is the missing marker (None/NaN/NaT). -/
abbrev Cell := Option Val

/-- Python `str(obj)` on a non-missing value. -/
def valStr : Val → String
  | .vstr s => s
  | .vint n => toString n
  | .vlist l => "[" ++ String.intercalate ", " (l.map svalStr) ++ "]"

/-- Embeds `pandas._libs.missing.checknull`: a scalar missingness test.  It returns a
  single boolean for any object; in particular a list/tuple cell is a single
  non-missing scalar. -/
def checknull (c : Cell) : Bool := c.isNone

/-- Embeds `_to_str_if_not_na` from the source: transform an object to `str` if it is
  not NA, otherwise pass the NA marker through. -/
def _to_str_if_not_na (c : Cell) : Cell :=
  if checknull c then c else some (.vstr (valStr (c.getD (.vstr ""))))

/-- A raw column label (pandas labels may be non-strings, e.g. integers). -/
inductive Label where
  | lstr (s : String)
  | lint (n : Int)
deriving DecidableEq

/-- Python `str` on a column label. -/
def labelStr : Label → String
  | .lstr s => s
  | .lint n => toString n

/-- Loop body of `_process_column_name`: walk the stringified labels keeping a
  running per-name counter (`current_id`); a label whose total count exceeds 1
  is renamed `{col}_{id}`. -/
def renameLoop (cnt : String → Nat) : List String → (String → Nat) → List String
  | [], _ => []
  | c :: rest, ids =>
    if 1 < cnt c then
      let k := ids c + 1
      (c ++ "_" ++ toString k) :: renameLoop cnt rest (fun x => if x = c then k else ids x)
    else
      c :: renameLoop cnt rest ids

/-- Embeds `_process_column_name` from the source: stringify all labels, then rename
  every occurrence of a duplicated name to `{name}_{running id}`. -/
def _process_column_name (df_columns : List Label) : List String :=
  let columns := df_columns.map labelStr
  renameLoop (fun c => columns.count c) columns (fun _ => 0)

/-- Native (storage) dtype of a column, as far as numpy promotion needs it. -/
inductive NDtype where
  | nbool
  | nint
  | nfloat
  | nobject
deriving DecidableEq

/-- Embeds `np.promote_types` restricted to the dtypes the model carries
  (bool < int < float < object). -/
def promote : NDtype → NDtype → NDtype
  | .nobject, _ => .nobject
  | _, .nobject => .nobject
  | .nfloat, _ => .nfloat
  | _, .nfloat => .nfloat
  | .nint, _ => .nint
  | _, .nint => .nint
  | .nbool, .nbool => .nbool

/-- Embeds `reduce(np.promote_types, dtypes)` over a (nonempty in practice) list. -/
def promoteAll : List NDtype → NDtype
  | [] => .nobject
  | d :: rest => rest.foldl promote d

/-- Semantic dtype tag returned by the (external) classifier `detect_dtype`. -/
inductive DType where
  | nominal
  | continuous
  | ordinal
  | datetime
deriving DecidableEq

/-- Embeds `isinstance(dt, Nominal)`. -/
def DType.isNominal : DType → Bool
  | .nominal => true
  | _ => false

/-- A raw partitioned (dask) DataFrame as received by the constructor:
  labels not yet stringified. -/
structure RawTable where
  cols : List Label
  ndtypes : List NDtype
  parts : List (List (List Cell))
deriving DecidableEq

/-- An in-memory pandas DataFrame: flat rows plus its
  `memory_usage(deep=True).sum()` in bytes. -/
structure PandasDF where
  cols : List Label
  ndtypes : List NDtype
  rows : List (List Cell)
  memBytes : Nat
deriving DecidableEq

/-- A normalized dask DataFrame (string column labels). -/
structure DDF where
  cols : List String
  ndtypes : List NDtype
  parts : List (List (List Cell))
deriving DecidableEq

/-- A dask Array: per-partition row-chunk lengths (`none` is an unknown/nan
  length), column count, flat cell matrix and element dtype. -/
structure DArr where
  chunks : List (Option Nat)
  ncols : Nat
  cells : List (List Cell)
  dtype : NDtype
deriving DecidableEq

/-- The `_nulls` field: either a lazy dask array (chunk metadata present) or,
  after `compute("nulls")`, a materialized numpy array (no chunk metadata). -/
inductive Nulls where
  | lazy (chunks : List (Option Nat)) (cells : List (List Bool))
  | mat (cells : List (List Bool))
deriving DecidableEq

/-- Chunk metadata of the nullity array, when it has any. -/
def nullsChunks? : Nulls → Option (List (Option Nat))
  | .lazy ch _ => some ch
  | .mat _ => none

/-- Column slicing `x[:, cidx]` (valid for both the dask and numpy case). -/
def Nulls.sliceCols (nu : Nulls) (cidx : List Nat) : Nulls :=
  match nu with
  | .lazy ch cells => .lazy ch (cells.map (fun r => cidx.map (fun i => r.getD i false)))
  | .mat cells => .mat (cells.map (fun r => cidx.map (fun i => r.getD i false)))

/-- Column slicing `arr[:, cidx]` on a dask array (row chunks preserved). -/
def DArr.sliceCols (a : DArr) (cidx : List Nat) : DArr :=
  { chunks := a.chunks
    ncols := cidx.length
    cells := a.cells.map (fun r => cidx.map (fun i => r.getD i none))
    dtype := a.dtype }

/-- Embeds `arr.astype(dt)`: the element dtype changes; the sliced values are all
  representable in the promoted target type, so cells are unchanged. -/
def DArr.astype (a : DArr) (dt : NDtype) : DArr := { a with dtype := dt }

/-- Embeds `ddf.to_dask_array(lengths=...)`: with `lengths=True` the per-partition row
  counts are resolved; without it every chunk length is unknown (nan). -/
def DDF.to_dask_array (d : DDF) (lengths : Bool) : DArr :=
  { chunks := d.parts.map (fun p => if lengths then some p.length else none)
    ncols := d.cols.length
    cells := d.parts.flatten
    dtype := promoteAll d.ndtypes }

/-- Embeds `ddf.isnull()` materialized as a flat boolean matrix. -/
def DDF.nullCells (d : DDF) : List (List Bool) :=
  d.parts.flatten.map (fun r => r.map (fun c => c.isNone))

/-- Missing-cell count of column `ci` (`pd_null[col].sum()`). -/
def DDF.nullCntFor (d : DDF) (ci : Nat) : Nat :=
  (d.nullCells.filter (fun r => r.getD ci false)).length

/-- Embeds `ddf.head(n)`: dask reads from the first partition only (the
  "Insufficient elements" warning is suppressed by the source). -/
def DDF.headN (d : DDF) (n : Nat) : List (List Cell) :=
  (d.parts.getD 0 []).take n

/-- The full cells of column `col` of the dataframe (`self._ddf[col]`). -/
def DDF.colCells (d : DDF) (col : String) : List Cell :=
  let i := d.cols.indexOf col
  d.parts.flatten.map (fun r => r.getD i none)

/-- Errors raised by the wrapper (each names the received value, as the
  source's f-string messages do). -/
inductive EdaError where
  | columnNotFound (col : String)
  | unsupportedComputeMode (mode : String)
  | unsupportedInputType (ty : String)
  | engineFailure (what : String)
deriving DecidableEq

/-- A cached string-coerced column. -/
abbrev StrCol := List Cell

/-- The heap of string-coercion cache dicts; a frame holds an index into it.
  Index 0 is the class-level `EDAFrame._str_col_cache` dict. -/
structure Store where
  caches : List (List ((String × Bool) × StrCol))
deriving DecidableEq

/-- The store at interpreter start: only the (empty) class-level dict. -/
def Store.init : Store := ⟨[[]]⟩

/-- The cache dict a frame observes. -/
def Store.cacheAt (s : Store) (i : Nat) : List ((String × Bool) × StrCol) :=
  s.caches.getD i []

/-- Insert an entry into the cache dict at index `i`. -/
def Store.insertAt (s : Store) (i : Nat) (key : String × Bool) (v : StrCol) : Store :=
  ⟨s.caches.set i ((key, v) :: s.cacheAt i)⟩

/-- The `EDAFrame` instance state. -/
structure EDAFrame where
  _ddf : DDF
  _values : DArr
  _nulls : Nulls
  _columns : List String
  _eda_dtypes : List (String × DType)
  _str_col_cacheId : Nat
  _nulls_cnt : List (String × Nat)
  _head : Option (List (List Cell))
  _shape : Option (Option Nat × Nat)
deriving DecidableEq

/-- Embeds `arr.shape` of a dask array: the row count is nan (here `none`) unless
  every chunk length is known. -/
def DArr.shapeOf (a : DArr) : Option Nat × Nat :=
  (if a.chunks.all (fun c => c.isSome) then some ((a.chunks.map (fun c => c.getD 0)).sum)
   else none,
   a.ncols)

/-- The `shape` property: caches `self.values.shape` on first read and returns
  the cached tuple ever after (it is never invalidated). -/
def EDAFrame.shapeP (f : EDAFrame) : EDAFrame × (Option Nat × Nat) :=
  match f._shape with
  | some s => (f, s)
  | none =>
    let s := f._values.shapeOf
    ({ f with _shape := some s }, s)

/-- Embeds `head(n)`: materialize the head sample on first call only; later calls
  return the cached sample regardless of the requested length. -/
def EDAFrame.headP (f : EDAFrame) (n : Nat) : EDAFrame × List (List Cell) :=
  match f._head with
  | some h => (f, h)
  | none =>
    let h := f._ddf.headN n
    ({ f with _head := some h }, h)

/-- Embeds `get_missing_cnt` (`self._nulls_cnt[col]`; the key is always present for a
  column of the frame). -/
def EDAFrame.get_missing_cnt (f : EDAFrame) (col : String) : Nat :=
  (f._nulls_cnt.lookup col).getD 0

/-- Embeds `get_dtype` (`self._eda_dtypes[col]`). -/
def EDAFrame.get_dtype (f : EDAFrame) (col : String) : DType :=
  (f._eda_dtypes.lookup col).getD .continuous

/-- Embeds `self._ddf[col].astype(str)`: every cell, missing markers included, becomes
  its string rendering (`"nan"` abstracts the rendering of the NA marker). -/
def astypeStrCell (c : Cell) : Cell :=
  some (.vstr (match c with
    | none => "nan"
    | some v => valStr v))

/-- Embeds `get_col_as_str(col, na_as_str)`: validate, consult the cache dict, take
  the nominal fast path, or coerce, persist and cache. -/
def get_col_as_str (s : Store) (f : EDAFrame) (col : String) (na_as_str : Bool) :
    Store × Except EdaError StrCol :=
  if col ∈ f._columns then
    let cache := s.cacheAt f._str_col_cacheId
    match cache.lookup (col, na_as_str) with
    | some v => (s, .ok v)
    | none =>
      if (f.get_dtype col).isNominal
          && ((na_as_str && f.get_missing_cnt col == 0) || !na_as_str) then
        (s, .ok (f._ddf.colCells col))
      else
        let v : StrCol :=
          if na_as_str then (f._ddf.colCells col).map astypeStrCell
          else (f._ddf.colCells col).map _to_str_if_not_na
        (s.insertAt f._str_col_cacheId (col, na_as_str) v, .ok v)
  else
    (s, .error (.columnNotFound col))

/-- Embeds `compute(type)`.  Mode `"lengths"` first reads `self.shape` (caching it!)
  and, when the row count is nan, re-derives both views with resolved lengths.
  Mode `"nulls"` materializes the nullity view, computes the concrete chunk
  sizes from its blocks (the dataframe partitions) and overwrites the array
  view's chunk metadata; calling it when `_nulls` is already a numpy array
  fails inside the engine (`map_blocks` on an ndarray).  Any other mode raises
  naming the received value. -/
def EDAFrame.compute (f : EDAFrame) (ty : String) : EDAFrame × Except EdaError Unit :=
  if ty = "lengths" then
    let p := f.shapeP
    if p.2.1 = none then
      let v := p.1._ddf.to_dask_array true
      ({ p.1 with _values := v, _nulls := .lazy v.chunks p.1._ddf.nullCells }, .ok ())
    else
      (p.1, .ok ())
  else if ty = "nulls" then
    match f._nulls with
    | .lazy _ cells =>
      let chunks := f._ddf.parts.map (fun p => p.length)
      ({ f with
          _nulls := .mat cells
          _values := { f._values with chunks := chunks.map some } }, .ok ())
    | .mat _ => (f, .error (.engineFailure "map_blocks on materialized ndarray"))
  else
    (f, .error (.unsupportedComputeMode ty))

/-- Integer ceiling division, `ceil(a / b)` of the source's float expression. -/
def cdiv (a b : Nat) : Nat := (a + b - 1) / b

/-- The partition count the constructor chooses for an in-memory table when
  repartitioning: `ceil(df_size / 128 / 1024 / 1024)` (line 110). -/
def edaNpartitions (memBytes : Nat) : Nat := cdiv memBytes (128 * 1024 * 1024)

/-- The spec's words for the same quantity: "partition count =
  ceil(total deep memory size / 128 MiB), minimum 1".  Stated separately for
  comparison with the source-derived `edaNpartitions`. -/
def specNpartitions (memBytes : Nat) : Nat := max 1 (cdiv memBytes (128 * 1024 * 1024))

/-- Split a list into chunks of `n` elements (`n = 0` degenerates to one
  chunk, a case dask never receives from a positive chunksize). -/
def chunkList (n : Nat) : List α → List (List α)
  | [] => []
  | x :: xs =>
    match n with
    | 0 => [x :: xs]
    | m + 1 => (x :: xs).take (m + 1) :: chunkList (m + 1) ((x :: xs).drop (m + 1))
termination_by l => l.length
decreasing_by simp [List.length_drop]; omega

/-- Embeds `dd.from_pandas(df, npartitions=np)`: dask derives an even chunk size
  `ceil(nrows / np)` and splits the rows accordingly. -/
def from_pandas_np (pdf : PandasDF) (np : Nat) : RawTable :=
  { cols := pdf.cols
    ndtypes := pdf.ndtypes
    parts := chunkList (cdiv pdf.rows.length (max 1 np)) pdf.rows }

/-- Embeds `dd.from_pandas(df, chunksize=-1)`: the whole table as one partition. -/
def from_pandas_single (pdf : PandasDF) : RawTable :=
  { cols := pdf.cols
    ndtypes := pdf.ndtypes
    parts := [pdf.rows] }

/-- Per-row part of the nominal-column string coercion: each cell of a column
  whose detected dtype is nominal goes through `_to_str_if_not_na`.  The cells
  of a row are paired positionally with the column names. -/
def transformRow (cl : String → DType) : List String → List Cell → List Cell
  | _, [] => []
  | [], c :: cs => c :: cs
  | name :: names, c :: cs =>
    (if (cl name).isNominal then _to_str_if_not_na c else c) :: transformRow cl names cs

/-- Embeds `ddf[col] = ddf[col].apply(_to_str_if_not_na, meta=(col, "object"))` for
  every column whose detected dtype is nominal: cells are coerced and the
  column's native dtype becomes object. -/
def transformNominal (cl : String → DType) (d : DDF) : DDF :=
  { cols := d.cols
    ndtypes := (d.cols.zip d.ndtypes).map (fun p => if (cl p.1).isNominal then .nobject else p.2)
    parts := d.parts.map (fun p => p.map (fun row => transformRow cl d.cols row)) }

/-- Lines 117-141 of the constructor, shared by the pandas and dask paths:
  normalize column labels, detect dtypes (`cl` is the classifier's output per
  normalized column name), coerce nominal columns, build the array view, align
  the nullity view's chunk metadata with it, and count missing cells.  The
  string-coercion cache is never rebound, so the frame keeps pointing at the
  class-level dict (id 0). -/
def normalizeBuild (raw : RawTable) (cl : String → DType) (lengthsFlag : Bool) : EDAFrame :=
  let cols := _process_column_name raw.cols
  let d0 : DDF := { cols := cols, ndtypes := raw.ndtypes, parts := raw.parts }
  let eda_dtypes := cols.map (fun c => (c, cl c))
  let d1 := transformNominal cl d0
  let values := d1.to_dask_array lengthsFlag
  { _ddf := d1
    _values := values
    _nulls := .lazy values.chunks d1.nullCells
    _columns := cols
    _eda_dtypes := eda_dtypes
    _str_col_cacheId := 0
    _nulls_cnt := cols.enum.map (fun p => (p.2, d1.nullCntFor p.1))
    _head := none
    _shape := none }

/-- Embeds `EDAFrame(df)` for an in-memory pandas DataFrame: repartition into 128 MiB
  chunks or keep a single partition, then normalize; lengths are always
  resolved for a pandas input (`value_length or is_pandas`). -/
def initFromPandas (pdf : PandasDF) (value_length repartition : Bool)
    (cl : String → DType) : EDAFrame :=
  let raw := if repartition then from_pandas_np pdf (edaNpartitions pdf.memBytes)
             else from_pandas_single pdf
  normalizeBuild raw cl (value_length || true)

/-- Embeds `EDAFrame(df)` for a dask DataFrame: used as-is (no repartitioning);
  lengths are resolved only when `value_length` is set. -/
def initFromDask (raw : RawTable) (value_length : Bool) (cl : String → DType) : EDAFrame :=
  let _ := ()
  normalizeBuild raw cl (value_length || false)

/-- Embeds `EDAFrame(df)` when `df` is another `EDAFrame` (lines 82-92): every field
  is taken over by reference — in particular the same string-coercion cache
  dict (same store id). -/
def initFromEDAFrame (df : EDAFrame) : EDAFrame :=
  { _ddf := df._ddf
    _values := df._values
    _columns := df._columns
    _nulls := df._nulls
    _nulls_cnt := df._nulls_cnt
    _eda_dtypes := df._eda_dtypes
    _str_col_cacheId := df._str_col_cacheId
    _head := df._head
    _shape := df._shape }

/-- Embeds `__getitem__` (projection): narrow the table by name, compute the retained
  positional indices, column-slice the array and nullity views, slice the head
  sample if one was materialized, filter the dtype / missing-count / string
  caches into fresh containers (a fresh store slot), and finally recompute the
  promoted element dtype of the narrowed array view when the result still has
  columns.  Reading `df.shape` caches the new frame's shape tuple. -/
def EDAFrame.getitem (f : EDAFrame) (s : Store) (indexer : List String) :
    Store × EDAFrame :=
  let subcols := indexer
  let cidx := subcols.map (fun c => f._columns.indexOf c)
  let didx := subcols.map (fun c => f._ddf.cols.indexOf c)
  let subddf : DDF :=
    { cols := subcols
      ndtypes := didx.map (fun i => f._ddf.ndtypes.getD i .nobject)
      parts := f._ddf.parts.map (fun p => p.map (fun row => didx.map (fun i => row.getD i none))) }
  let filtered :=
    (subcols.map (fun c =>
      ([true, false].filterMap (fun b =>
        ((s.cacheAt f._str_col_cacheId).lookup (c, b)).map (fun v => ((c, b), v)))))).flatten
  let s' : Store := ⟨s.caches ++ [filtered]⟩
  let g0 : EDAFrame :=
    { _ddf := subddf
      _columns := subcols
      _values := f._values.sliceCols cidx
      _nulls := f._nulls.sliceCols cidx
      _head := f._head.map (fun h => h.map (fun row => cidx.map (fun i => row.getD i none)))
      _eda_dtypes := subcols.map (fun c => (c, (f._eda_dtypes.lookup c).getD .continuous))
      _nulls_cnt := subcols.map (fun c => (c, (f._nulls_cnt.lookup c).getD 0))
      _str_col_cacheId := s.caches.length
      _shape := none }
  let p := g0.shapeP
  let g1 := p.1
  let g2 :=
    if p.2.2 ≠ 0 then
      let dt := promoteAll subddf.ndtypes
      if g1._values.dtype ≠ dt then { g1 with _values := g1._values.astype dt } else g1
    else g1
  (s', g2)

instance {ε α : Type _} [DecidableEq ε] [DecidableEq α] : DecidableEq (Except ε α) :=
  fun a b =>
    match a, b with
    | .ok x, .ok y => decidable_of_iff (x = y) (by simp)
    | .error x, .error y => decidable_of_iff (x = y) (by simp)
    | .ok _, .error _ => isFalse (by simp)
    | .error _, .ok _ => isFalse (by simp)

/-- The cell of a raw table at partition `pi`, row `ri`, column `ci`. -/
def RawTable.cellAt (raw : RawTable) (pi ri ci : Nat) : Cell :=
  ((raw.parts.getD pi []).getD ri []).getD ci none

/-- The cell of a normalized dataframe at partition `pi`, row `ri`, column `ci`. -/
def DDF.cellAt (d : DDF) (pi ri ci : Nat) : Cell :=
  ((d.parts.getD pi []).getD ri []).getD ci none

/-- The structural invariant claimed for the two views: the nullity array
  carries chunk metadata and it coincides with the array view's. -/
abbrev chunksAligned (f : EDAFrame) : Prop :=
  nullsChunks? f._nulls = some f._values.chunks

/-- A classifier output making every column continuous. -/
def clCont : String → DType := fun _ => .continuous

/-- A classifier output making every column nominal. -/
def clNom : String → DType := fun _ => .nominal

/-- Fixture: a one-column in-memory table with one missing cell. -/
def pdfA : PandasDF :=
  { cols := [.lstr "a"], ndtypes := [.nint],
    rows := [[some (.vint 1)], [none]], memBytes := 64 }

/-- Fixture: `EDAFrame(pdfA, repartition=False)`. -/
def fA : EDAFrame := initFromPandas pdfA false false clCont

/-- Fixture: a two-partition dask table (row counts unresolved on wrap). -/
def rawB : RawTable :=
  { cols := [.lstr "a"], ndtypes := [.nint],
    parts := [[[some (.vint 1)]], [[some (.vint 2)]]] }

/-- Fixture: `EDAFrame(rawB, value_length=False)`. -/
def fB : EDAFrame := initFromDask rawB false clCont

/-- Fixture: a three-column dask table. -/
def rawC : RawTable :=
  { cols := [.lstr "a", .lstr "b", .lstr "c"],
    ndtypes := [.nint, .nint, .nfloat],
    parts := [[[some (.vint 1), some (.vint 2), none],
               [none, none, some (.vint 3)]]] }

/-- Fixture: `EDAFrame(rawC, value_length=True)`. -/
def fC : EDAFrame := initFromDask rawC true clCont

/-- Fixture: a one-column table holding a container-valued cell, a missing
  cell and an integer cell. -/
def rawD : RawTable :=
  { cols := [.lstr "x"], ndtypes := [.nobject],
    parts := [[[some (.vlist [.sint 1, .sint 2])], [none], [some (.vint 7)]]] }

/-- Fixture: `EDAFrame(rawD)` with every column classified nominal. -/
def fD : EDAFrame := initFromDask rawD false clNom

/-- Fixture: a seven-row single-partition table (for head-sample caching). -/
def pdfE : PandasDF :=
  { cols := [.lstr "a"], ndtypes := [.nint],
    rows := (List.range 7).map (fun i => [some (.vint i)]), memBytes := 64 }

/-- Fixture: `EDAFrame(pdfE, repartition=False)`. -/
def fE : EDAFrame := initFromPandas pdfE false false clCont

/-- Fixture: copy-construction `EDAFrame(fA)` — shares `fA`'s cache dict. -/
def fAcopy : EDAFrame := initFromEDAFrame fA

/-- Unfolding equation: `compute("lengths")`. -/
theorem compute_lengths_eq (f : EDAFrame) :
    f.compute "lengths" =
      (let p := f.shapeP
       if p.2.1 = none then
         let v := p.1._ddf.to_dask_array true
         ({ p.1 with _values := v, _nulls := .lazy v.chunks p.1._ddf.nullCells }, .ok ())
       else (p.1, .ok ())) := rfl

/-- Unfolding equation: `compute("nulls")`. -/
theorem compute_nulls_eq (f : EDAFrame) :
    f.compute "nulls" =
      (match f._nulls with
       | .lazy _ cells =>
         ({ f with
             _nulls := .mat cells
             _values := { f._values with
               chunks := (f._ddf.parts.map (fun p => p.length)).map some } }, .ok ())
       | .mat _ => (f, .error (.engineFailure "map_blocks on materialized ndarray"))) := rfl

/-- Reading the `shape` property never changes the two views. -/
theorem shapeP_fst_nulls (f : EDAFrame) : (f.shapeP).1._nulls = f._nulls := by
  rcases h : f._shape with _ | s <;> simp [EDAFrame.shapeP, h]

/-- Reading the `shape` property never changes the two views. -/
theorem shapeP_fst_values (f : EDAFrame) : (f.shapeP).1._values = f._values := by
  rcases h : f._shape with _ | s <;> simp [EDAFrame.shapeP, h]

/-- C1 counterexample: `fA` is a valid construction and is chunk-aligned, but
  after `compute("nulls")` the nullity view is a materialized ndarray carrying
  no chunk metadata, so `array_view.chunks == nullity_view.chunks` fails. -/
theorem C1_cex : chunksAligned fA ∧ ¬ chunksAligned ((fA.compute "nulls").1) := by
  decide

/-- C1 (amended): both constructions establish chunk alignment and
  `compute("lengths")` preserves it; `compute("nulls")` instead sets the array
  view's chunks to the concrete partition lengths while replacing the nullity
  view by a fully materialized array without chunk metadata. -/
theorem C1_amended :
    (∀ pdf vl rp cl, chunksAligned (initFromPandas pdf vl rp cl)) ∧
    (∀ raw vl cl, chunksAligned (initFromDask raw vl cl)) ∧
    (∀ f : EDAFrame, chunksAligned f → chunksAligned ((f.compute "lengths").1)) ∧
    (∀ (f : EDAFrame) ch cells, f._nulls = .lazy ch cells →
      ((f.compute "nulls").1._values.chunks = f._ddf.parts.map (fun p => some p.length) ∧
       (f.compute "nulls").1._nulls = .mat cells)) := by
  refine ⟨fun pdf vl rp cl => rfl, fun raw vl cl => rfl, ?_, ?_⟩
  · intro f h
    rw [compute_lengths_eq]
    dsimp only
    split
    · rfl
    · show chunksAligned (f.shapeP).1
      show nullsChunks? (f.shapeP).1._nulls = some (f.shapeP).1._values.chunks
      rw [shapeP_fst_nulls, shapeP_fst_values]
      exact h
  · intro f ch cells h
    rw [compute_nulls_eq, h]
    exact ⟨by simp, rfl⟩

/-- Closed instance of `C1_amended`: alignment after `compute("lengths")` on a
  concrete construction, and the `compute("nulls")` clauses on a concrete
  two-partition frame. -/
theorem C1_amended_witness :
    chunksAligned ((fA.compute "lengths").1) ∧
    ((fB.compute "nulls").1._values.chunks = fB._ddf.parts.map (fun p => some p.length) ∧
     (fB.compute "nulls").1._nulls = .mat [[false], [false]]) :=
  ⟨C1_amended.2.2.1 fA (by decide),
   C1_amended.2.2.2 fB [none, none] [[false], [false]] (by decide)⟩

/-- C2 counterexample: on input labels `["a","a","b"]` the source renames
  every occurrence of the duplicated label, yielding `["a_1","a_2","b"]`, not
  `["a","a_1","b"]` as the claim states. -/
theorem C2_cex :
    _process_column_name [.lstr "a", .lstr "a", .lstr "b"] = ["a_1", "a_2", "b"] ∧
    _process_column_name [.lstr "a", .lstr "a", .lstr "b"] ≠ ["a", "a_1", "b"] := by
  decide

/-- The running counter in `renameLoop` realizes per-occurrence numbering:
  entry `i` of the output is the stringified label, suffixed with the number
  of its occurrences seen so far (the `ids` baseline plus the occurrences in
  the processed prefix) whenever its total count exceeds one. -/
theorem renameLoop_getD (cnt : String → Nat) :
    ∀ (rest : List String) (ids : String → Nat) (i : Nat), i < rest.length →
      (renameLoop cnt rest ids).getD i "" =
        if 1 < cnt (rest.getD i "") then
          rest.getD i "" ++ "_" ++
            toString (ids (rest.getD i "") + (rest.take (i + 1)).count (rest.getD i ""))
        else rest.getD i "" := by
  intro rest
  induction rest with
  | nil => intro ids i hi; simp at hi
  | cons c rs ih =>
    intro ids i hi
    cases i with
    | zero =>
      by_cases hc : 1 < cnt c
      · simp only [renameLoop, if_pos hc, List.getD_cons_zero, List.take_succ_cons,
          List.take_zero, List.count_cons_self, List.count_nil]
      · simp only [renameLoop, if_neg hc, List.getD_cons_zero]
    | succ j =>
      have hj : j < rs.length := by simpa using hi
      simp only [List.getD_cons_succ, List.take_succ_cons]
      by_cases hc : 1 < cnt c
      · simp only [renameLoop, if_pos hc, List.getD_cons_succ]
        rw [ih _ j hj]
        by_cases hx : rs.getD j "" = c
        · rw [hx, if_pos hc, if_pos hc, List.count_cons_self]
          have h1 : (if c = c then ids c + 1 else ids c) = ids c + 1 := if_pos rfl
          rw [h1]
          congr 1
          congr 1
          omega
        · rw [List.count_cons_of_ne hx, if_neg hx]
      · simp only [renameLoop, if_neg hc, List.getD_cons_succ]
        rw [ih _ j hj]
        by_cases hx : rs.getD j "" = c
        · rw [hx, if_neg hc, if_neg hc]
        · rw [List.count_cons_of_ne hx]

/-- Output length of `renameLoop` equals its input length. -/
theorem renameLoop_length (cnt : String → Nat) :
    ∀ (rest : List String) (ids : String → Nat),
      (renameLoop cnt rest ids).length = rest.length := by
  intro rest
  induction rest with
  | nil => intro ids; rfl
  | cons c rs ih =>
    intro ids
    by_cases hc : 1 < cnt c <;> simp [renameLoop, hc, ih]

/-- C2 (amended): every label is stringified, and every occurrence of a label
  whose stringified form is duplicated — including the first — is renamed to
  `name_j` with `j` its 1-based occurrence index in first-seen order; labels
  with a unique stringified form are unchanged.  In particular
  `["a","a","b"]` yields `["a_1","a_2","b"]`. -/
theorem C2_amended (cols : List Label) (i : Nat) (h : i < cols.length) :
    ((_process_column_name cols).length = cols.length ∧
     (_process_column_name cols).getD i "" =
       (if 1 < (cols.map labelStr).count ((cols.map labelStr).getD i "") then
          (cols.map labelStr).getD i "" ++ "_" ++
            toString (((cols.map labelStr).take (i + 1)).count ((cols.map labelStr).getD i ""))
        else (cols.map labelStr).getD i "")) ∧
    _process_column_name [.lstr "a", .lstr "a", .lstr "b"] = ["a_1", "a_2", "b"] := by
  refine ⟨⟨?_, ?_⟩, by decide⟩
  · rw [_process_column_name, renameLoop_length]
    simp
  · rw [_process_column_name]
    rw [renameLoop_getD _ _ _ i (by simpa using h)]
    simp

/-- Closed instance of `C2_amended` at input labels `["a","a","b"]`, index 0. -/
theorem C2_amended_witness :
    ((_process_column_name [Label.lstr "a", Label.lstr "a", Label.lstr "b"]).length = 3 ∧
     (_process_column_name [Label.lstr "a", Label.lstr "a", Label.lstr "b"]).getD 0 "" =
       (if 1 < (([Label.lstr "a", Label.lstr "a", Label.lstr "b"].map labelStr)).count
              (([Label.lstr "a", Label.lstr "a", Label.lstr "b"].map labelStr).getD 0 "") then
          ([Label.lstr "a", Label.lstr "a", Label.lstr "b"].map labelStr).getD 0 "" ++ "_" ++
            toString ((([Label.lstr "a", Label.lstr "a", Label.lstr "b"].map labelStr).take 1).count
              (([Label.lstr "a", Label.lstr "a", Label.lstr "b"].map labelStr).getD 0 ""))
        else ([Label.lstr "a", Label.lstr "a", Label.lstr "b"].map labelStr).getD 0 "")) ∧
    _process_column_name [.lstr "a", .lstr "a", .lstr "b"] = ["a_1", "a_2", "b"] :=
  C2_amended [Label.lstr "a", Label.lstr "a", Label.lstr "b"] 0 (by decide)

/-- C3: on a frame with unresolved row count, `compute("lengths")` itself
  reads `self.shape`, caching the tuple with a nan row count into `_shape`
  before re-deriving the array view, and `_shape` is never invalidated; so
  `shape[0]` stays non-concrete although the array view's chunk lengths did
  get resolved, and a later `compute("nulls")` leaves it unchanged too. -/
theorem C3_bug :
    (fB.shapeP).2.1 = none ∧
    ((fB.compute "lengths").1._values.chunks = [some 1, some 1]) ∧
    ((((fB.compute "lengths").1).shapeP).2.1 = none) ∧
    (((((fB.compute "lengths").1).compute "nulls").1).shapeP).2.1 = none := by
  decide

/-- C5: validation failures are raised before any materialization or cache
  mutation: `get_col_as_str` on an absent column returns a ColumnNotFound
  error naming the column with the cache store untouched, and `compute` on an
  unsupported mode returns an UnsupportedComputeMode error naming the received
  value with the frame state untouched. -/
theorem C5_validation (s : Store) (f : EDAFrame) (col mode : String) (b : Bool)
    (h1 : col ∉ f._columns) (h2 : mode ≠ "lengths") (h3 : mode ≠ "nulls") :
    get_col_as_str s f col b = (s, .error (.columnNotFound col)) ∧
    f.compute mode = (f, .error (.unsupportedComputeMode mode)) := by
  constructor
  · rw [get_col_as_str, if_neg h1]
  · rw [EDAFrame.compute, if_neg h2, if_neg h3]

/-- Closed instance of `C5_validation` at a concrete frame, an absent column
  label and an unsupported mode string. -/
theorem C5_validation_witness :
    get_col_as_str Store.init fA "zz" false = (Store.init, .error (.columnNotFound "zz")) ∧
    fA.compute "bogus" = (fA, .error (.unsupportedComputeMode "bogus")) :=
  C5_validation Store.init fA "zz" "bogus" false (by decide) (by decide) (by decide)

/-- C9 counterexample: at estimated size 0 the source computes
  `ceil(0 / 128MiB) = 0` partitions, not the claimed minimum of 1. -/
theorem C9_cex :
    edaNpartitions 0 = 0 ∧ specNpartitions 0 = 1 ∧
    edaNpartitions 0 ≠ specNpartitions 0 := by
  decide

/-- C9 (amended): for every positive estimated in-memory size the chosen
  partition count equals the spec's `max 1 (ceil(size / 128MiB))` (the code
  has no explicit minimum-1 clamp, so the two differ only at size 0), and
  without repartitioning the table is wrapped as a single partition. -/
theorem C9_amended (sz : Nat) (h : 0 < sz) :
    edaNpartitions sz = specNpartitions sz ∧
    (∀ (pdf : PandasDF) vl cl, (initFromPandas pdf vl false cl)._ddf.parts.length = 1) := by
  constructor
  · have hM : (0 : Nat) < 128 * 1024 * 1024 := by norm_num
    have h1 : 1 ≤ cdiv sz (128 * 1024 * 1024) := by
      rw [cdiv, Nat.one_le_div_iff hM]
      omega
    rw [edaNpartitions, specNpartitions]
    omega
  · intro pdf vl cl
    rfl

/-- Closed instance of `C9_amended` at a size just above one chunk and at the
  concrete single-partition construction `fA`. -/
theorem C9_amended_witness :
    edaNpartitions 134217729 = specNpartitions 134217729 ∧
    (initFromPandas pdfA false false clCont)._ddf.parts.length = 1 :=
  ⟨(C9_amended 134217729 (by decide)).1, (C9_amended 1 (by decide)).2 pdfA false clCont⟩

/-- C10: the head sample is materialized on the first `head(n)` call only, and
  every later `head(m)` returns the cached sample unchanged, regardless of the
  requested length `m`. -/
theorem C10_head (f : EDAFrame) (n m : Nat) (h : f._head = none) :
    (f.headP n).2 = f._ddf.headN n ∧
    ((f.headP n).1.headP m).2 = f._ddf.headN n ∧
    ((f.headP n).1.headP m).1 = (f.headP n).1 := by
  simp [EDAFrame.headP, h]

/-- Closed instance of `C10_head`: `head(5)` on a seven-row frame materializes
  the five-row prefix and a subsequent `head(10)` still returns it. -/
theorem C10_head_witness :
    fE._head = none ∧
    ((fE.headP 5).2 = fE._ddf.headN 5 ∧
     ((fE.headP 5).1.headP 10).2 = fE._ddf.headN 5 ∧
     ((fE.headP 5).1.headP 10).1 = (fE.headP 5).1) ∧
    (fE._ddf.headN 5).length = 5 :=
  ⟨by decide, C10_head fE 5 10 (by decide), by decide⟩

/-- Lemma: `getD` through `map`, when the supplied default is the image of a default. -/
theorem list_getD_map {α β : Type _} (f : α → β) (l : List α) (i : Nat) (d : α) :
    (l.map f).getD i (f d) = f (l.getD i d) := by
  induction l generalizing i with
  | nil => rfl
  | cons a t ih =>
    cases i with
    | zero => rfl
    | succ j =>
      simp only [List.map_cons, List.getD_cons_succ]
      exact ih j

/-- A row survives `transformRow` unchanged when it is empty. -/
theorem transformRow_nil (cl : String → DType) (names : List String) :
    transformRow cl names [] = [] := by
  cases names <;> rfl

/-- Pointwise description of `transformRow`: cell `ci` of the transformed row
  is `_to_str_if_not_na` of the original cell exactly when column `ci` is
  classified nominal. -/
theorem transformRow_getD (cl : String → DType) :
    ∀ (names : List String) (row : List Cell) (ci : Nat), ci < names.length →
      (transformRow cl names row).getD ci none =
        if (cl (names.getD ci "")).isNominal then _to_str_if_not_na (row.getD ci none)
        else row.getD ci none := by
  intro names
  induction names with
  | nil => intro row ci h; simp at h
  | cons n ns ih =>
    intro row ci h
    cases row with
    | nil =>
      rw [transformRow_nil]
      cases ci <;> simp [_to_str_if_not_na, checknull]
    | cons c cs =>
      cases ci with
      | zero => simp [transformRow]
      | succ j =>
        have hj : j < ns.length := by simpa using h
        simp only [transformRow, List.getD_cons_succ]
        exact ih cs j hj

/-- Pointwise description of the nominal-column coercion pass over a whole
  dataframe. -/
theorem cellAt_transformNominal (cl : String → DType) (d : DDF) (pi ri ci : Nat)
    (hci : ci < d.cols.length) :
    (transformNominal cl d).cellAt pi ri ci =
      if (cl (d.cols.getD ci "")).isNominal then _to_str_if_not_na (d.cellAt pi ri ci)
      else d.cellAt pi ri ci := by
  have h1 : (d.parts.map (fun p => p.map (fun row => transformRow cl d.cols row))).getD pi []
      = (d.parts.getD pi []).map (fun row => transformRow cl d.cols row) := by
    have h0 := list_getD_map
      (fun p => p.map (fun row => transformRow cl d.cols row)) d.parts pi []
    simpa using h0
  have h2 : ((d.parts.getD pi []).map (fun row => transformRow cl d.cols row)).getD ri []
      = transformRow cl d.cols ((d.parts.getD pi []).getD ri []) := by
    have h0 := list_getD_map
      (fun row => transformRow cl d.cols row) (d.parts.getD pi []) ri []
    rw [transformRow_nil] at h0
    exact h0
  show (((transformNominal cl d).parts.getD pi []).getD ri []).getD ci none = _
  simp only [transformNominal]
  rw [h1, h2, transformRow_getD cl d.cols _ ci hci]
  rfl

/-- C8: at construction every column classified nominal has its cells passed
  through `_to_str_if_not_na`: missing markers pass through unchanged and
  every non-missing value — including a container-valued cell — becomes its
  string representation; the missingness check `checknull` treats a container
  cell as a single non-missing scalar. -/
theorem C8_nominal (raw : RawTable) (vl : Bool) (cl : String → DType) (pi ri ci : Nat)
    (hci : ci < (_process_column_name raw.cols).length)
    (hnom : (cl ((_process_column_name raw.cols).getD ci "")).isNominal = true) :
    ((initFromDask raw vl cl)._ddf.cellAt pi ri ci
      = _to_str_if_not_na (raw.cellAt pi ri ci)) ∧
    (raw.cellAt pi ri ci = none → (initFromDask raw vl cl)._ddf.cellAt pi ri ci = none) ∧
    (∀ v, raw.cellAt pi ri ci = some v →
      (initFromDask raw vl cl)._ddf.cellAt pi ri ci = some (.vstr (valStr v))) ∧
    (∀ l, checknull (some (.vlist l)) = false) := by
  have hddf : (initFromDask raw vl cl)._ddf
      = transformNominal cl ⟨_process_column_name raw.cols, raw.ndtypes, raw.parts⟩ := rfl
  have hmain : (initFromDask raw vl cl)._ddf.cellAt pi ri ci
      = _to_str_if_not_na (raw.cellAt pi ri ci) := by
    rw [hddf, cellAt_transformNominal cl _ pi ri ci hci]
    rw [if_pos hnom]
    rfl
  refine ⟨hmain, ?_, ?_, fun l => rfl⟩
  · intro h
    rw [hmain, h]
    rfl
  · intro v h
    rw [hmain, h]
    simp [_to_str_if_not_na, checknull]

/-- Closed instance of `C8_nominal` on a concrete nominal column holding a
  container cell, a missing cell and an integer cell. -/
theorem C8_nominal_witness :
    (fD._ddf.cellAt 0 0 0 = _to_str_if_not_na (rawD.cellAt 0 0 0)) ∧
    (rawD.cellAt 0 1 0 = none → fD._ddf.cellAt 0 1 0 = none) ∧
    (∀ v, rawD.cellAt 0 0 0 = some v → fD._ddf.cellAt 0 0 0 = some (.vstr (valStr v))) ∧
    (∀ l, checknull (some (.vlist l)) = false) :=
  ⟨(C8_nominal rawD false clNom 0 0 0 (by decide) (by decide)).1,
   (C8_nominal rawD false clNom 0 1 0 (by decide) (by decide)).2.1,
   (C8_nominal rawD false clNom 0 0 0 (by decide) (by decide)).2.2.1,
   (C8_nominal rawD false clNom 0 0 0 (by decide) (by decide)).2.2.2⟩

/-- Field-level description of `__getitem__`: the projected frame's columns,
  cell matrix, chunk metadata, nullity view, dtype map, missing-count map and
  fresh cache id, and the store extended with the filtered cache dict. -/
theorem getitem_fields (f : EDAFrame) (s : Store) (idx : List String) :
    ((f.getitem s idx).2._columns = idx) ∧
    ((f.getitem s idx).2._values.cells =
       f._values.cells.map (fun r =>
         (idx.map (fun c => f._columns.indexOf c)).map (fun i => r.getD i none))) ∧
    ((f.getitem s idx).2._values.chunks = f._values.chunks) ∧
    ((f.getitem s idx).2._nulls =
       f._nulls.sliceCols (idx.map (fun c => f._columns.indexOf c))) ∧
    ((f.getitem s idx).2._eda_dtypes =
       idx.map (fun c => (c, (f._eda_dtypes.lookup c).getD .continuous))) ∧
    ((f.getitem s idx).2._nulls_cnt =
       idx.map (fun c => (c, (f._nulls_cnt.lookup c).getD 0))) ∧
    ((f.getitem s idx).2._str_col_cacheId = s.caches.length) ∧
    ((f.getitem s idx).1 = ⟨s.caches ++
       [((idx.map (fun c =>
           ([true, false].filterMap (fun b =>
             ((s.cacheAt f._str_col_cacheId).lookup (c, b)).map
               (fun v => ((c, b), v)))))).flatten)]⟩) := by
  simp only [EDAFrame.getitem, EDAFrame.shapeP, DArr.sliceCols, DArr.astype]
  split
  · split
    · simp
    · simp
  · simp

/-- C4: projecting `["b"]` out of a frame with columns `["a","b","c"]` yields
  a one-column frame whose array-view cells and nullity view are the
  positional column-1 slices of the source's views (chunk metadata preserved,
  nothing recomputed from the table), whose dtype map contains only `"b"` with
  the source's entry, and whose missing count for `"b"` is the source's. -/
theorem C4_proj (s : Store) (f : EDAFrame) (db : DType) (nb : Nat)
    (hc : f._columns = ["a", "b", "c"])
    (hdt : f._eda_dtypes.lookup "b" = some db)
    (hnc : f._nulls_cnt.lookup "b" = some nb) :
    ((f.getitem s ["b"]).2._columns = ["b"]) ∧
    ((f.getitem s ["b"]).2._values.cells = f._values.cells.map (fun r => [r.getD 1 none])) ∧
    ((f.getitem s ["b"]).2._values.chunks = f._values.chunks) ∧
    ((f.getitem s ["b"]).2._nulls = f._nulls.sliceCols [1]) ∧
    ((f.getitem s ["b"]).2._eda_dtypes = [("b", db)]) ∧
    ((f.getitem s ["b"]).2._nulls_cnt = [("b", nb)]) := by
  have hidx : f._columns.indexOf "b" = 1 := by rw [hc]; decide
  obtain ⟨h1, h2, h3, h4, h5, h6, _, _⟩ := getitem_fields f s ["b"]
  simp only [List.map_cons, List.map_nil, hidx] at h2 h4 h5 h6
  rw [hdt] at h5
  rw [hnc] at h6
  exact ⟨h1, h2, h3, h4, h5, h6⟩

/-- Closed instance of `C4_proj` on the concrete three-column frame `fC`. -/
theorem C4_proj_witness :
    ((fC.getitem Store.init ["b"]).2._columns = ["b"]) ∧
    ((fC.getitem Store.init ["b"]).2._values.cells
       = fC._values.cells.map (fun r => [r.getD 1 none])) ∧
    ((fC.getitem Store.init ["b"]).2._values.chunks = fC._values.chunks) ∧
    ((fC.getitem Store.init ["b"]).2._nulls = fC._nulls.sliceCols [1]) ∧
    ((fC.getitem Store.init ["b"]).2._eda_dtypes = [("b", .continuous)]) ∧
    ((fC.getitem Store.init ["b"]).2._nulls_cnt = [("b", 1)]) :=
  C4_proj Store.init fC .continuous 1 (by decide) (by decide) (by decide)

/-- Inserting into one cache dict leaves every other cache dict unchanged. -/
theorem cacheAt_insertAt_ne (s : Store) (i j : Nat) (key : String × Bool) (v : StrCol)
    (h : j ≠ i) : (s.insertAt i key v).cacheAt j = s.cacheAt j := by
  simp only [Store.insertAt, Store.cacheAt, List.getD_eq_getElem?_getD]
  rw [List.getElem?_set_ne (fun hh => h hh.symm)]

/-- Appending a fresh cache dict leaves the existing dicts unchanged. -/
theorem cacheAt_append (s : Store) (j : Nat) (c : List ((String × Bool) × StrCol))
    (h : j < s.caches.length) :
    (Store.mk (s.caches ++ [c])).cacheAt j = s.cacheAt j := by
  simp only [Store.cacheAt, List.getD_eq_getElem?_getD]
  rw [List.getElem?_append_left h]

/-- Lemma: `get_col_as_str` writes at most into the calling frame's own cache dict. -/
theorem get_col_as_str_cacheAt_ne (s : Store) (f : EDAFrame) (col : String) (b : Bool)
    (j : Nat) (h : j ≠ f._str_col_cacheId) :
    (get_col_as_str s f col b).1.cacheAt j = s.cacheAt j := by
  by_cases hm : col ∈ f._columns
  · cases hl : (s.cacheAt f._str_col_cacheId).lookup (col, b) with
    | some v => simp only [get_col_as_str, if_pos hm, hl]
    | none =>
      by_cases hfast :
          ((f.get_dtype col).isNominal && ((b && f.get_missing_cnt col == 0) || !b)) = true
      · simp only [get_col_as_str, if_pos hm, hl, if_pos hfast]
      · simp only [get_col_as_str, if_pos hm, hl, if_neg hfast]
        exact cacheAt_insertAt_ne s f._str_col_cacheId j (col, b) _ h
  · simp only [get_col_as_str, if_neg hm]

/-- C6 counterexample: `fAcopy` is copy-constructed from `fA`, so the two
  share one string-coercion cache dict by reference; populating the cache
  through the copy changes the cache state observable on `fA`. -/
theorem C6_cex :
    fAcopy._str_col_cacheId = fA._str_col_cacheId ∧
    (get_col_as_str Store.init fAcopy "a" false).1.cacheAt fA._str_col_cacheId
      ≠ Store.init.cacheAt fA._str_col_cacheId := by
  decide

/-- C6 (amended): a *projected* instance gets a fresh cache dict: projection
  does not disturb the source's dict, and afterwards `get_col_as_str` on
  either of the two instances leaves the cache dict of the other unchanged.
  (Copy-constructed instances — and all instances built from raw data, which
  keep pointing at the class-level dict — share a dict instead.) -/
theorem C6_amended (s : Store) (f : EDAFrame) (idx : List String)
    (col col2 : String) (b b2 : Bool)
    (hid : f._str_col_cacheId < s.caches.length) :
    ((f.getitem s idx).2._str_col_cacheId ≠ f._str_col_cacheId) ∧
    ((f.getitem s idx).1.cacheAt f._str_col_cacheId = s.cacheAt f._str_col_cacheId) ∧
    ((get_col_as_str (f.getitem s idx).1 (f.getitem s idx).2 col b).1.cacheAt
        f._str_col_cacheId
      = (f.getitem s idx).1.cacheAt f._str_col_cacheId) ∧
    ((get_col_as_str (f.getitem s idx).1 f col2 b2).1.cacheAt
        (f.getitem s idx).2._str_col_cacheId
      = (f.getitem s idx).1.cacheAt (f.getitem s idx).2._str_col_cacheId) := by
  obtain ⟨-, -, -, -, -, -, hfid, hst⟩ := getitem_fields f s idx
  have hne : f._str_col_cacheId ≠ s.caches.length := Nat.ne_of_lt hid
  refine ⟨?_, ?_, ?_, ?_⟩
  · rw [hfid]
    exact fun hh => hne hh.symm
  · rw [hst]
    exact cacheAt_append s f._str_col_cacheId _ hid
  · exact get_col_as_str_cacheAt_ne _ _ col b _ (by rw [hfid]; exact hne)
  · exact get_col_as_str_cacheAt_ne _ f col2 b2 _ (by rw [hfid]; exact Nat.ne_of_gt hid)

/-- Closed instance of `C6_amended`: projecting `fA` to `["a"]` and touching
  the string cache on either side leaves the other side's dict unchanged. -/
theorem C6_amended_witness :
    ((fA.getitem Store.init ["a"]).2._str_col_cacheId ≠ fA._str_col_cacheId) ∧
    ((fA.getitem Store.init ["a"]).1.cacheAt fA._str_col_cacheId
      = Store.init.cacheAt fA._str_col_cacheId) ∧
    ((get_col_as_str (fA.getitem Store.init ["a"]).1 (fA.getitem Store.init ["a"]).2
        "a" false).1.cacheAt fA._str_col_cacheId
      = (fA.getitem Store.init ["a"]).1.cacheAt fA._str_col_cacheId) ∧
    ((get_col_as_str (fA.getitem Store.init ["a"]).1 fA "a" true).1.cacheAt
        (fA.getitem Store.init ["a"]).2._str_col_cacheId
      = (fA.getitem Store.init ["a"]).1.cacheAt
        (fA.getitem Store.init ["a"]).2._str_col_cacheId) :=
  C6_amended Store.init fA ["a"] "a" "a" false true (by decide)

/-- C7: a second `get_col_as_str` request with the same `(column, na_as_str)`
  key returns the very result of the first call and leaves the cache store
  untouched — no recomputation, whether the first call was answered by the
  nominal fast path or populated the cache. -/
theorem C7_idem (s : Store) (f : EDAFrame) (col : String) (b : Bool) (s1 : Store)
    (v : StrCol) (h : get_col_as_str s f col b = (s1, .ok v)) :
    get_col_as_str s1 f col b = (s1, .ok v) := by
  by_cases hm : col ∈ f._columns
  · cases hl : (s.cacheAt f._str_col_cacheId).lookup (col, b) with
    | some w =>
      simp only [get_col_as_str, if_pos hm, hl] at h
      injection h with hA hB
      injection hB with hB
      subst hA
      subst hB
      simp only [get_col_as_str, if_pos hm, hl]
    | none =>
      by_cases hfast :
          ((f.get_dtype col).isNominal && ((b && f.get_missing_cnt col == 0) || !b)) = true
      · simp only [get_col_as_str, if_pos hm, hl, if_pos hfast] at h
        injection h with hA hB
        injection hB with hB
        subst hA
        subst hB
        simp only [get_col_as_str, if_pos hm, hl, if_pos hfast]
      · simp only [get_col_as_str, if_pos hm, hl, if_neg hfast] at h
        injection h with hA hB
        injection hB with hB
        by_cases hlt : f._str_col_cacheId < s.caches.length
        · have hcache : s1.cacheAt f._str_col_cacheId
              = ((col, b), v) :: s.cacheAt f._str_col_cacheId := by
            rw [← hA, hB]
            simp only [Store.insertAt, Store.cacheAt, List.getD_eq_getElem?_getD]
            rw [List.getElem?_set_eq_of_lt _ (by simpa using hlt)]
            rfl
          simp only [get_col_as_str, if_pos hm, hcache]
          simp [List.lookup]
        · have hins : ∀ (w : StrCol), s.insertAt f._str_col_cacheId (col, b) w = s := by
            intro w
            simp only [Store.insertAt]
            rw [List.set_eq_of_length_le (Nat.le_of_not_lt hlt)]
          have hss : s1 = s := by rw [← hA, hins]
          subst hss
          simp only [get_col_as_str, if_pos hm, hl, if_neg hfast, hins, hB]
  · simp only [get_col_as_str, if_neg hm] at h
    injection h with hA hB
    exact absurd hB (by simp)

/-- Closed instance of `C7_idem`: the coercion of column `"a"` of `fA` is
  cached by the first call and the second call returns the cached column with
  the store unchanged. -/
theorem C7_idem_witness :
    get_col_as_str (Store.mk [[(("a", false), [some (.vstr "1"), none])]]) fA "a" false
      = (Store.mk [[(("a", false), [some (.vstr "1"), none])]],
         .ok [some (.vstr "1"), none]) :=
  C7_idem Store.init fA "a" false
    (Store.mk [[(("a", false), [some (.vstr "1"), none])]])
    [some (.vstr "1"), none] (by decide)

end DataPrep
